import Mathlib

/-!
Shallow embedding of the assist-agent backend (face recognition, OCR,
scene journaling, and the query dispatch entry point), together with
theorems settling the specification claims.

Conventions of the embedding:
* Python strings that undergo character-level processing (OCR text, file
  paths, identities) are modelled as `List Char`; opaque message strings
  stay `String`.
* External collaborators (HTTP downloads, the DeepFace matcher, the
  Vision OCR engine, the generative model) are modelled by explicit
  outcome values passed in as parameters: the code under analysis is the
  deterministic processing the repository performs on those outcomes.
* Python floats (match distances and confidences) are modelled as `ℚ`.
* A raised-and-caught Python exception is modelled by the outcome
  constructor carrying its message.
-/

namespace SmartGlasses

/-! ## OCR service (ocr_service.py)

`OCRService.extract_text` downloads the image (returning `[]` when the
download fails), calls the Vision engine, and on success takes the first
annotation's full description, splits it on newlines, strips each line,
and keeps the non-empty ones.  Engine exceptions yield `[]`. -/

/-- Outcome of the external Vision text-detection call: either the list of
text annotations (the first one carries the full text) or an exception. -/
inductive OcrOutcome
| annotations (texts : List (List Char))
| engineError (msg : String)

/-- Model of Python `str.split('\n')`: splits a character list at every
newline; the empty input yields one empty field, mirroring Python. -/
def splitNl : List Char → List (List Char)
| [] => [[]]
| c :: rest =>
  if c = '\n' then [] :: splitNl rest
  else
    match splitNl rest with
    | [] => [[c]]
    | h :: t => (c :: h) :: t

/-- Model of Python `str.lstrip()` on a character list. -/
def trimLeft (l : List Char) : List Char := l.dropWhile Char.isWhitespace

/-- Model of Python `str.rstrip()` on a character list. -/
def trimRight (l : List Char) : List Char := l.rdropWhile Char.isWhitespace

/-- Model of Python `str.strip()` on a character list. -/
def trim (l : List Char) : List Char := trimRight (trimLeft l)

/-- Embedding of `OCRService.extract_text` (ocr_service.py lines 33-70).
`downloadOk = false` models `_download_image` returning `None`. -/
def extract_text (downloadOk : Bool) (ocr : OcrOutcome) : List (List Char) :=
  if downloadOk then
    match ocr with
    | .engineError _ => []
    | .annotations [] => []
    | .annotations (fullText :: _) =>
      ((splitNl fullText).map trim).filter (fun l => l ≠ [])
  else []

/-! ## Face recognition (face_detection.py)

`FaceRecognitionClass.find_face` downloads the image (returning `[]` on
failure), runs `DeepFace.find` (returning `[]` on exception), and for each
returned data frame takes its first row, reporting
`os.path.basename(identity).split('.')[0]` as the identity and
`(1 - distance) * 100` as the confidence.  `add_face` downloads the image
and saves it as `faces/<identity>.jpg`. -/

/-- Row of a DeepFace result frame: the stored gallery file path and the
reported distance. -/
structure MatchRow where
  identity : List Char
  distance : ℚ
deriving DecidableEq

/-- Outcome of the external `DeepFace.find` call: a list of result frames
(one per detected face), or a raised exception. -/
inductive MatcherOutcome
| results (frames : List (List MatchRow))
| serviceError (msg : String)

/-- Formatted match returned by `find_face`. -/
structure FaceMatch where
  identity : List Char
  confidence : ℚ
  path : List Char
deriving DecidableEq

/-- Accumulator form of POSIX `os.path.basename`: keeps the characters
seen since the most recent slash. -/
def basenameAux : List Char → List Char → List Char
| acc, [] => acc
| acc, c :: rest => if c = '/' then basenameAux [] rest else basenameAux (acc ++ [c]) rest

/-- Model of `os.path.basename` on a POSIX path. -/
def basenameChars (p : List Char) : List Char := basenameAux [] p

/-- Model of `s.split('.')[0]`: the characters before the first dot. -/
def takeUntilDot (l : List Char) : List Char := l.takeWhile (fun c => c != '.')

/-- Identity string that `find_face` reports for a stored gallery path:
`os.path.basename(path).split('.')[0]` (face_detection.py line 70). -/
def reportedIdentity (storedPath : List Char) : List Char :=
  takeUntilDot (basenameChars storedPath)

/-- Embedding of the result-formatting loop of `find_face`
(face_detection.py lines 64-79): the first row of each non-empty frame
becomes one match, in frame order. -/
def processMatches (frames : List (List MatchRow)) : List FaceMatch :=
  frames.filterMap (fun frame =>
    match frame with
    | [] => none
    | row :: _ =>
      some ⟨reportedIdentity row.identity, (1 - row.distance) * 100, row.identity⟩)

/-- Embedding of `FaceRecognitionClass.find_face` (face_detection.py
lines 40-83).  `downloadOk = false` models a failed download. -/
def find_face (downloadOk : Bool) (matcher : MatcherOutcome) : List FaceMatch :=
  if downloadOk then
    match matcher with
    | .serviceError _ => []
    | .results frames => processMatches frames
  else []

/-- Faces directory configured in `FaceRecognitionClass.__init__`. -/
def facesDirC : List Char := "faces".toList

/-- Path under which `add_face` stores the downloaded image:
`os.path.join(faces_dir, f"{identity}.jpg")` (face_detection.py line 102). -/
def addPath (identity : List Char) : List Char :=
  facesDirC ++ '/' :: identity ++ ".jpg".toList

/-- Embedding of `FaceRecognitionClass.add_face` (face_detection.py
lines 85-107).  Returns the stored path on success, `none` when the
download or the `Image.save` call fails (the function returns `False`). -/
def add_face (downloadOk : Bool) (identity : List Char) (saveOk : Bool) :
    Option (List Char) :=
  if downloadOk then
    if saveOk then some (addPath identity) else none
  else none

/-! ## Scene service (scene_service.py)

`get_daily_recap` lists scene files matching the date, describes each one
with the generative model (retrying once after a 30-second sleep when the
exception message signals a 429 rate limit, with a prompt stripped of the
point-of-view instruction), sleeps 5 seconds after each successful
per-scene call, then issues one summarizing call (same retry policy).
The external generation calls are modelled by an oracle indexed by call
number; sleeps and calls are recorded in an event trace. -/

/-- Outcome of one call to `model.generate_content`: the response text, or
a raised exception whose message may contain the substring "429"
(modelled by the `rateLimited` flag). -/
inductive GenOutcome
| ok (text : String)
| err (msg : String) (rateLimited : Bool)
deriving DecidableEq

/-- Whether a generation outcome is a success. -/
def GenOutcome.isOk : GenOutcome → Bool
| .ok _ => true
| .err _ _ => false

/-- Text of a successful generation outcome (default for errors). -/
def GenOutcome.textD : GenOutcome → String
| .ok t => t
| .err _ _ => ""

/-- Observable event of the recap loop: a per-scene generation call with
the point-of-view prompt, a per-scene call with the plain retry prompt,
a summarizing call, or a `time.sleep` of the given number of seconds. -/
inductive Event
| callScenePov (scene : List Char)
| callScenePlain (scene : List Char)
| callSummary
| sleep (secs : Nat)
deriving DecidableEq

/-- Result dictionary of `get_daily_recap`: either
`{"status": "success", "description": ..., "scenes_used": ...}` or
`{"status": "error", "message": ...}`. -/
inductive RecapResult
| success (description : String) (scenesUsed : List (List Char))
| error (message : String)
deriving DecidableEq

/-- Status field of a recap result dictionary. -/
def RecapResult.status : RecapResult → String
| .success _ _ => "success"
| .error _ => "error"

/-- Scenes directory configured in `SceneService.__init__`. -/
def scenesDirC : List Char := "scenes".toList

/-- Embedding of `SceneService.get_daily_scenes` (scene_service.py lines
48-57): the directory entries whose names start with `scene_<date>`,
each joined with the scenes directory. -/
def get_daily_scenes (files : List (List Char)) (date : List Char) : List (List Char) :=
  (files.filter (fun f => List.isPrefixOf ("scene_".toList ++ date) f)).map
    (fun f => scenesDirC ++ '/' :: f)

/-- Outcome of processing one scene in the recap loop: either continue
with the obtained description, the next oracle index and the emitted
events, or abort the recap with an error message. -/
inductive SceneStep
| cont (desc : String) (next : Nat) (events : List Event)
| abort (msg : String) (events : List Event)

/-- Embedding of one iteration of the per-scene loop of `get_daily_recap`
(scene_service.py lines 91-131): a successful call appends its text and
sleeps 5 seconds; a 429 failure sleeps 30 seconds and retries exactly once
with the plain prompt (no sleep after a successful retry); a non-429
failure, or a failing retry, aborts the whole recap. -/
def processScene (oracle : Nat → GenOutcome) (scene : List Char) (k : Nat) : SceneStep :=
  match oracle k with
  | .ok t => .cont t (k + 1) [.callScenePov scene, .sleep 5]
  | .err m rl =>
    if rl then
      match oracle (k + 1) with
      | .ok t => .cont t (k + 2) [.callScenePov scene, .sleep 30, .callScenePlain scene]
      | .err m2 _ =>
        .abort ("Failed to analyze scene after retry: " ++ m2)
          [.callScenePov scene, .sleep 30, .callScenePlain scene]
    else .abort ("Failed to analyze scene: " ++ m) [.callScenePov scene]

/-- Embedding of the per-scene loop of `get_daily_recap`: threads the
oracle index, the collected descriptions and the event trace. -/
def recapLoop (oracle : Nat → GenOutcome) :
    List (List Char) → Nat → List String → List Event →
    Except String (List String) × Nat × List Event
| [], k, descs, evs => (Except.ok descs, k, evs)
| s :: rest, k, descs, evs =>
  match processScene oracle s k with
  | .cont d k2 es => recapLoop oracle rest k2 (descs ++ [d]) (evs ++ es)
  | .abort m es => (Except.error m, k, evs ++ es)

/-- Embedding of the final summarizing call of `get_daily_recap`
(scene_service.py lines 141-165): one call, retried once after a
30-second sleep when the failure signals a rate limit; the retry reuses
the same combined prompt. -/
def finalSummary (oracle : Nat → GenOutcome) (k : Nat) :
    Except String String × List Event :=
  match oracle k with
  | .ok t => (Except.ok t, [.callSummary])
  | .err m rl =>
    if rl then
      match oracle (k + 1) with
      | .ok t => (Except.ok t, [.callSummary, .sleep 30, .callSummary])
      | .err m2 _ =>
        (Except.error ("Failed to generate summary after retry: " ++ m2),
         [.callSummary, .sleep 30, .callSummary])
    else (Except.error ("Failed to generate summary: " ++ m), [.callSummary])

/-- Assembly of the recap after the per-scene loop (scene_service.py
lines 133-172): an aborted loop propagates its error; otherwise the
summarizing call produces the success dictionary or its own error. -/
def finishRecap (oracle : Nat → GenOutcome) (scenes : List (List Char)) :
    Except String (List String) × Nat × List Event → RecapResult × List Event
| (Except.error m, _, evs) => (.error m, evs)
| (Except.ok descs, k, evs) =>
  if descs.isEmpty then (.error "Failed to analyze any scenes", evs)
  else
    match finalSummary oracle k with
    | (Except.ok t, es) => (.success t scenes, evs ++ es)
    | (Except.error m, es) => (.error m, evs ++ es)

/-- Recap pipeline over an already-listed non-empty scene set. -/
def recapFromScenes (oracle : Nat → GenOutcome) (scenes : List (List Char)) :
    RecapResult × List Event :=
  finishRecap oracle scenes (recapLoop oracle scenes 0 [] [])

/-- Embedding of `SceneService.get_daily_recap` (scene_service.py lines
78-174) over the directory listing, the date (already defaulted) and the
generation oracle. -/
def get_daily_recap (files : List (List Char)) (date : List Char)
    (oracle : Nat → GenOutcome) : RecapResult × List Event :=
  if (get_daily_scenes files date).isEmpty then
    (.error "No scenes found for the specified date", [])
  else recapFromScenes oracle (get_daily_scenes files date)

/-- Outcome of the `requests.get` call in `save_screenshot`: a response
with its HTTP status code, or a raised exception. -/
inductive HttpResult
| resp (statusCode : Nat)
| exn (msg : String)

/-- Result dictionary of `save_screenshot`. -/
inductive SaveResult
| success (filepath : List Char) (timestamp : List Char)
| error (message : String)
deriving DecidableEq

/-- Status field of a screenshot-save result dictionary. -/
def SaveResult.status : SaveResult → String
| .success _ _ => "success"
| .error _ => "error"

/-- Embedding of `SceneService.save_screenshot` (scene_service.py lines
24-46): any raised exception (download or file write, modelled by
`writeErr`) yields the error dictionary; a non-200 status code yields
`{"status": "error", "message": "Failed to download image"}`. -/
def save_screenshot (timestamp : List Char) (http : HttpResult)
    (writeErr : Option String) : SaveResult :=
  match http with
  | .exn m => .error m
  | .resp code =>
    if code = 200 then
      match writeErr with
      | some m => .error m
      | none => .success (scenesDirC ++ '/' :: "scene_".toList ++ timestamp ++ ".jpg".toList) timestamp
    else .error "Failed to download image"

/-- Result dictionary of `SceneService.describe_scene` (scene_service.py
lines 59-76), driven by the outcome of its single generation call. -/
def describe_scene (gen : Except String String) : RecapResult :=
  match gen with
  | Except.ok t => .success t []
  | Except.error m => .error m

/-! ## Query entry point (main.py `process_query`, lines 185-269)

The whole endpoint body runs inside `try: ... except Exception as e:
raise HTTPException(status_code=500, detail=str(e))`.  Any
`HTTPException` deliberately raised inside the `try` (status 400) is
itself an `Exception`, so the blanket handler catches it and re-raises it
as a 500 whose detail is `str(e)`, i.e. `"<code>: <detail>"`.  The
external state each branch consults is collected in a `World` record. -/

/-- External state consulted by the dispatch branches. -/
structure World where
  faceDownloadOk : Bool
  matcher : MatcherOutcome
  ocrDownloadOk : Bool
  ocr : OcrOutcome
  addDownloadOk : Bool
  addSaveOk : Bool
  screenshotHttp : HttpResult
  screenshotWriteErr : Option String
  timestamp : List Char
  describeGen : Except String String
  files : List (List Char)
  oracle : Nat → GenOutcome
  today : List Char

/-- Per-function `result` dictionary built by `process_query`; each
constructor mirrors the literal dictionary in the corresponding branch. -/
inductive QueryResult
| faceNotFound
| faceSuccess (found : List FaceMatch)
| textSuccess (lines : List (List Char))
| saveFaceSuccess (identity : String)
| screenshotSuccess (filepath : List Char) (timestamp : List Char)
| describeSuccess (description : String)
| recapSuccess (description : String) (scenesUsed : List (List Char))
deriving DecidableEq

/-- Status field of the `result` dictionary: only the empty-match
recognize-face branch reports "not_found"; every other returned envelope
reports "success". -/
def QueryResult.status : QueryResult → String
| .faceNotFound => "not_found"
| _ => "success"

/-- Observable outcome of the `/query` endpoint: a returned envelope
`{function, result}` or an `HTTPException` escaping the handler. -/
inductive QueryOutcome
| ok (function : String) (result : QueryResult)
| httpError (code : Nat) (detail : String)
deriving DecidableEq

/-- Exception raised inside the endpoint's `try` block: a deliberate
`HTTPException(code, detail)` or a generic Python exception. -/
inductive InnerExn
| httpExn (code : Nat) (detail : String)
| pyExn (msg : String)

/-- Model of Python `str(e)`: Starlette renders an `HTTPException` as
`"<code>: <detail>"`; a generic exception renders as its message. -/
def strOfExn : InnerExn → String
| .httpExn c d => toString c ++ ": " ++ d
| .pyExn m => m

/-- Structured function call extracted from the classifier response:
name plus an association list of string arguments. -/
structure FnCall where
  name : String
  args : List (String × String)

/-- Model of `function_call.args["key"]`: a missing key raises
`KeyError`, whose `str` is the quoted key. -/
def lookupArg (args : List (String × String)) (k : String) : Except InnerExn String :=
  match args.lookup k with
  | some v => Except.ok v
  | none => Except.error (.pyExn ("KeyError: " ++ k))

/-- Embedding of the if/elif dispatch chain inside the `try` block of
`process_query` (main.py lines 203-266). -/
def dispatchCall (w : World) (fc : FnCall) : Except InnerExn (String × QueryResult) :=
  if fc.name = "recognize_face" then do
    let _ ← lookupArg fc.args "image_url"
    let found := find_face w.faceDownloadOk w.matcher
    if found.isEmpty then pure ("recognize_face", .faceNotFound)
    else pure ("recognize_face", .faceSuccess found)
  else if fc.name = "extract_text" then do
    let _ ← lookupArg fc.args "image_url"
    pure ("extract_text", .textSuccess (extract_text w.ocrDownloadOk w.ocr))
  else if fc.name = "save_face" then do
    let _ ← lookupArg fc.args "image_url"
    let idn ← lookupArg fc.args "identity"
    match add_face w.addDownloadOk idn.toList w.addSaveOk with
    | some _ => pure ("save_face", .saveFaceSuccess idn)
    | none => Except.error (.httpExn 400 "Failed to save face")
  else if fc.name = "save_screenshot" then do
    let _ ← lookupArg fc.args "image_url"
    match save_screenshot w.timestamp w.screenshotHttp w.screenshotWriteErr with
    | .error m => Except.error (.httpExn 400 m)
    | .success fp ts => pure ("save_screenshot", .screenshotSuccess fp ts)
  else if fc.name = "describe_scene" then do
    let _ ← lookupArg fc.args "image_url"
    match describe_scene w.describeGen with
    | .error m => Except.error (.httpExn 400 m)
    | .success d _ => pure ("describe_scene", .describeSuccess d)
  else if fc.name = "get_daily_recap" then
    let date := ((fc.args.lookup "date").map String.toList).getD w.today
    match (get_daily_recap w.files date w.oracle).fst with
    | .error m => Except.error (.httpExn 400 m)
    | .success d scenes => pure ("get_daily_recap", .recapSuccess d scenes)
  else Except.error (.httpExn 400 "Unsupported function")

/-- Embedding of the `/query` endpoint `process_query` (main.py lines
185-269): a classifier exception or any exception raised by the dispatch
chain — including its own deliberate 400 `HTTPException`s — is caught by
the blanket handler and surfaces as a 500 with detail `str(e)`. -/
def process_query (w : World) (classifier : Except String FnCall) : QueryOutcome :=
  match classifier with
  | Except.error m => .httpError 500 m
  | Except.ok fc =>
    match dispatchCall w fc with
    | Except.ok (fn, r) => .ok fn r
    | Except.error e => .httpError 500 (strOfExn e)

/-! ## Auxiliary definitions used by the theorems -/

/-- Benign default external state used to instantiate counterexamples. -/
def baseWorld : World where
  faceDownloadOk := true
  matcher := .results []
  ocrDownloadOk := true
  ocr := .annotations []
  addDownloadOk := true
  addSaveOk := true
  screenshotHttp := .resp 200
  screenshotWriteErr := none
  timestamp := "20250101_120000".toList
  describeGen := Except.ok "a quiet room"
  files := []
  oracle := fun _ => GenOutcome.ok "a quiet room"
  today := "20250101".toList

/-- Events emitted by the per-scene loop when every call succeeds: each
scene contributes its point-of-view call followed by the 5-second sleep. -/
def allOkEvents : List (List Char) → List Event
| [] => []
| s :: rest => .callScenePov s :: .sleep 5 :: allOkEvents rest

/-- Descriptions collected by the per-scene loop when every call
succeeds, starting at oracle index `k`. -/
def okTexts (oracle : Nat → GenOutcome) : Nat → List (List Char) → List String
| _, [] => []
| k, _ :: rest => (oracle k).textD :: okTexts oracle (k + 1) rest

/-- Number of per-scene description calls (either prompt) in a trace. -/
def countPerSceneCalls (evs : List Event) : Nat :=
  evs.countP (fun e => match e with
    | .callScenePov _ => true
    | .callScenePlain _ => true
    | _ => false)

/-- Number of summarizing calls in a trace. -/
def countSummaryCalls (evs : List Event) : Nat :=
  evs.countP (fun e => match e with
    | .callSummary => true
    | _ => false)

/-- Whether some sleep occurs strictly after the last per-scene call of a
trace (the spec asserts the inter-call delay happens only between
per-scene calls). -/
def delayAfterLastPerSceneCall (evs : List Event) : Bool :=
  (evs.reverse.takeWhile (fun e => match e with
    | .callScenePov _ => false
    | .callScenePlain _ => false
    | _ => true)).any
    (fun e => match e with
      | .sleep _ => true
      | _ => false)

/-- Oracle whose first call succeeds and whose later calls all fail with
a rate-limit error. -/
def c4Oracle : Nat → GenOutcome := fun k =>
  if k = 0 then .ok "walking through a park"
  else .err "429 Resource has been exhausted" true

/-- Directory listing holding exactly one scene file for 2025-01-01. -/
def oneSceneFiles : List (List Char) := ["scene_20250101_120000.jpg".toList]

/-- Oracle for which every generation call succeeds. -/
def okOracle : Nat → GenOutcome := fun _ => .ok "a tidy desk"

/-- Claimed property: every confidence lies in the interval [0, 100]. -/
def confidencesInRange (ms : List FaceMatch) : Prop :=
  ∀ fm ∈ ms, 0 ≤ fm.confidence ∧ fm.confidence ≤ 100

/-- Claimed property: matches are ordered by descending confidence. -/
def sortedByConfidenceDesc (ms : List FaceMatch) : Prop :=
  List.Chain' (fun a b => b.confidence ≤ a.confidence) ms

/-- Matcher result frames with distances 1/2, 0 and 2. -/
def c8Frames : List (List MatchRow) :=
  [[⟨"faces/ada.jpg".toList, 1/2⟩],
   [⟨"faces/bob.jpg".toList, 0⟩],
   [⟨"faces/cat.jpg".toList, 2⟩]]

/-- Matcher result frame with a single row at distance 1/2. -/
def c8WitnessFrames : List (List MatchRow) := [[⟨"faces/ada.jpg".toList, 1/2⟩]]

/-! ## Helper lemmas -/

lemma headOpt_dropWhile_false (p : Char → Bool) (l : List Char) (c : Char)
    (h : (l.dropWhile p).head? = some c) : p c = false := by
  induction l with
  | nil => simp at h
  | cons a rest ih =>
    by_cases ha : p a = true
    · rw [List.dropWhile_cons_of_pos ha] at h
      exact ih h
    · rw [List.dropWhile_cons_of_neg ha] at h
      simp at h
      subst h
      simpa using ha

lemma headOpt_of_isPre {l1 l2 : List Char} (h : l1 <+: l2) (hne : l1 ≠ []) :
    l2.head? = l1.head? := by
  obtain ⟨t, rfl⟩ := h
  cases l1 with
  | nil => exact absurd rfl hne
  | cons a r => rfl

lemma trimLeft_trim (l : List Char) : trimLeft (trim l) = trim l := by
  cases hc : (trim l).head? with
  | none =>
    have h0 : trim l = [] := by
      cases htl : trim l with
      | nil => rfl
      | cons a rest => rw [htl] at hc; simp at hc
    rw [h0]
    rfl
  | some c =>
    have hne : trim l ≠ [] := by
      intro h0
      rw [h0] at hc
      simp at hc
    have hpre : trim l <+: trimLeft l := List.rdropWhile_prefix _ _
    have hh : (trimLeft l).head? = some c := by
      rw [headOpt_of_isPre hpre hne]
      exact hc
    have hws : Char.isWhitespace c = false := headOpt_dropWhile_false _ l c hh
    show (trim l).dropWhile Char.isWhitespace = trim l
    cases htl : trim l with
    | nil => rfl
    | cons a rest =>
      rw [htl] at hc
      simp at hc
      subst hc
      rw [List.dropWhile_cons_of_neg (by simp [hws])]

lemma trim_trim (l : List Char) : trim (trim l) = trim l := by
  have h1 : trim (trim l) = trimRight (trimLeft (trim l)) := rfl
  rw [h1, trimLeft_trim]
  show (trim l).rdropWhile Char.isWhitespace = trim l
  have h2 : trim l = (trimLeft l).rdropWhile Char.isWhitespace := rfl
  rw [h2, List.rdropWhile_idempotent]

lemma basenameAux_append (xs ys acc : List Char) :
    basenameAux acc (xs ++ ys) = basenameAux (basenameAux acc xs) ys := by
  induction xs generalizing acc with
  | nil => rfl
  | cons c rest ih =>
    by_cases h : c = '/'
    · simp [basenameAux, h, ih]
    · simp [basenameAux, h, ih]

lemma basenameAux_no_slash (ys : List Char) (acc : List Char) (h : '/' ∉ ys) :
    basenameAux acc ys = acc ++ ys := by
  induction ys generalizing acc with
  | nil => simp [basenameAux]
  | cons c rest ih =>
    have hc : ¬ c = '/' := by
      intro hh
      exact h (by rw [hh]; exact List.mem_cons_self _ _)
    have hrest : '/' ∉ rest := fun hm => h (List.mem_cons_of_mem _ hm)
    simp [basenameAux, hc, ih _ hrest]

lemma slash_not_mem_basenameAux (ys : List Char) (acc : List Char) (h : '/' ∉ acc) :
    '/' ∉ basenameAux acc ys := by
  induction ys generalizing acc with
  | nil => simpa [basenameAux] using h
  | cons c rest ih =>
    by_cases hc : c = '/'
    · simp only [basenameAux, if_pos hc]
      exact ih [] (by simp)
    · simp only [basenameAux, if_neg hc]
      refine ih (acc ++ [c]) ?_
      intro hm
      rcases List.mem_append.1 hm with hm1 | hm2
      · exact h hm1
      · simp at hm2
        exact hc hm2.symm

lemma takeUntilDot_append_dot (xs ys : List Char) (h : '.' ∉ xs) :
    takeUntilDot (xs ++ '.' :: ys) = xs := by
  induction xs with
  | nil => simp [takeUntilDot, List.takeWhile_cons]
  | cons c rest ih =>
    have hc : c ≠ '.' := by
      intro hh
      exact h (by rw [hh]; exact List.mem_cons_self _ _)
    have hrest : '.' ∉ rest := fun hm => h (List.mem_cons_of_mem _ hm)
    simp only [List.cons_append, takeUntilDot, List.takeWhile_cons]
    simp [bne_iff_ne, hc]
    exact ih hrest

lemma dot_not_mem_takeUntilDot (l : List Char) : '.' ∉ takeUntilDot l := by
  intro h
  have := List.mem_takeWhile_imp h
  simp at this

lemma okTexts_length (oracle : Nat → GenOutcome) (k : Nat) (scenes : List (List Char)) :
    (okTexts oracle k scenes).length = scenes.length := by
  induction scenes generalizing k with
  | nil => rfl
  | cons s rest ih => simp [okTexts, ih]

lemma countPerSceneCalls_allOkEvents (scenes : List (List Char)) :
    countPerSceneCalls (allOkEvents scenes) = scenes.length := by
  induction scenes with
  | nil => rfl
  | cons s rest ih =>
    simp only [allOkEvents, countPerSceneCalls, List.countP_cons] at *
    simp [ih]

lemma countSummaryCalls_allOkEvents (scenes : List (List Char)) :
    countSummaryCalls (allOkEvents scenes) = 0 := by
  induction scenes with
  | nil => rfl
  | cons s rest ih =>
    simp only [allOkEvents, countSummaryCalls, List.countP_cons] at *
    simp [ih]

lemma isOk_exists_text {g : GenOutcome} (h : g.isOk = true) : ∃ t, g = .ok t := by
  cases g with
  | ok t => exact ⟨t, rfl⟩
  | err m rl => simp [GenOutcome.isOk] at h

lemma recapLoop_all_ok (oracle : Nat → GenOutcome) (pre rest : List (List Char))
    (k : Nat) (descs : List String) (evs : List Event)
    (h : ∀ i, i < pre.length → (oracle (k + i)).isOk = true) :
    recapLoop oracle (pre ++ rest) k descs evs =
      recapLoop oracle rest (k + pre.length) (descs ++ okTexts oracle k pre)
        (evs ++ allOkEvents pre) := by
  induction pre generalizing k descs evs with
  | nil => simp [okTexts, allOkEvents]
  | cons s pre2 ih =>
    obtain ⟨t, ht⟩ := isOk_exists_text (by simpa using h 0 (by simp))
    have hstep : processScene oracle s k = .cont t (k + 1) [.callScenePov s, .sleep 5] := by
      simp [processScene, ht]
    show recapLoop oracle (s :: (pre2 ++ rest)) k descs evs = _
    rw [recapLoop, hstep]
    have h2 : ∀ i, i < pre2.length → (oracle (k + 1 + i)).isOk = true := by
      intro i hi
      have := h (i + 1) (by simpa using Nat.succ_lt_succ hi)
      rwa [show k + (i + 1) = k + 1 + i by omega] at this
    show recapLoop oracle (pre2 ++ rest) (k + 1) (descs ++ [t])
        (evs ++ [.callScenePov s, .sleep 5]) = _
    rw [ih (k + 1) (descs ++ [t]) (evs ++ [Event.callScenePov s, Event.sleep 5]) h2]
    have htd : (oracle k).textD = t := by rw [ht]; rfl
    have hk : k + 1 + pre2.length = k + (s :: pre2).length := by
      simp only [List.length_cons]
      omega
    have hd : (descs ++ [t]) ++ okTexts oracle (k + 1) pre2
        = descs ++ okTexts oracle k (s :: pre2) := by
      simp [okTexts, htd]
    have he : (evs ++ [Event.callScenePov s, Event.sleep 5]) ++ allOkEvents pre2
        = evs ++ allOkEvents (s :: pre2) := by
      simp [allOkEvents]
    rw [hk, hd, he]

lemma recapLoop_cons (oracle : Nat → GenOutcome) (s : List Char)
    (rest : List (List Char)) (k : Nat) (descs : List String) (evs : List Event) :
    recapLoop oracle (s :: rest) k descs evs =
      match processScene oracle s k with
      | .cont d k2 es => recapLoop oracle rest k2 (descs ++ [d]) (evs ++ es)
      | .abort m es => (Except.error m, k, evs ++ es) := rfl

lemma recapFromScenes_all_ok (oracle : Nat → GenOutcome) (scenes : List (List Char))
    (hne : scenes ≠ []) (hok : ∀ i, i ≤ scenes.length → (oracle i).isOk = true) :
    recapFromScenes oracle scenes =
      (.success ((oracle scenes.length).textD) scenes,
        allOkEvents scenes ++ [.callSummary]) := by
  have hloop := recapLoop_all_ok oracle scenes [] 0 [] []
    (fun i hi => by simpa using hok i (Nat.le_of_lt hi))
  rw [List.append_nil] at hloop
  unfold recapFromScenes
  rw [hloop]
  obtain ⟨t, ht⟩ := isOk_exists_text (hok scenes.length (le_refl _))
  have hdescs : (okTexts oracle 0 scenes).isEmpty = false := by
    cases scenes with
    | nil => exact absurd rfl hne
    | cons a r => rfl
  have hfin : finalSummary oracle scenes.length = (Except.ok t, [.callSummary]) := by
    simp [finalSummary, ht]
  have hred : recapLoop oracle [] (0 + scenes.length) ([] ++ okTexts oracle 0 scenes)
      ([] ++ allOkEvents scenes)
      = (Except.ok (okTexts oracle 0 scenes), scenes.length, allOkEvents scenes) := by
    simp [recapLoop]
  rw [hred]
  show (if (okTexts oracle 0 scenes).isEmpty then
      ((RecapResult.error "Failed to analyze any scenes"), allOkEvents scenes)
    else
      match finalSummary oracle scenes.length with
      | (Except.ok t2, es) => (RecapResult.success t2 scenes, allOkEvents scenes ++ es)
      | (Except.error m, es) => (RecapResult.error m, allOkEvents scenes ++ es)) = _
  rw [hdescs, hfin]
  simp only [Bool.false_eq_true, if_false]
  rw [ht]
  rfl

/-! ## Claim theorems -/

/-- C1 (counterexample): with zero stored scenes for the requested date,
`get_daily_recap` returns the dictionary `{"status": "error", "message":
"No scenes found for the specified date"}`, whose status is "error" and
not "not_found", and the `/query` endpoint escalates it to a transport
error (HTTP 500 after the blanket handler rewraps the 400) — refuting
the claim that this case is reported as a normal, non-error outcome with
status "not_found". -/
theorem C1_counterexample :
    ((get_daily_recap [] ("20250101".toList) (fun _ => GenOutcome.ok "d")).fst).status
      = "error"
  ∧ ((get_daily_recap [] ("20250101".toList) (fun _ => GenOutcome.ok "d")).fst).status
      ≠ "not_found"
  ∧ process_query baseWorld (Except.ok ⟨"get_daily_recap", []⟩)
      = .httpError 500 "400: No scenes found for the specified date" :=
  ⟨rfl, by decide, rfl⟩

/-- C1 (amended): for every date, when no stored scene filename carries
the `scene_<date>` name lead, `get_daily_recap` returns an error result
with status "error" and message "No scenes found for the specified
date" (no generation call is issued), rather than a not-found outcome. -/
theorem C1_no_scenes_is_error_status (files : List (List Char)) (date : List Char)
    (oracle : Nat → GenOutcome) (h : get_daily_scenes files date = []) :
    get_daily_recap files date oracle
      = (.error "No scenes found for the specified date", [])
  ∧ (RecapResult.error "No scenes found for the specified date").status = "error" := by
  constructor
  · unfold get_daily_recap
    rw [h]
    rfl
  · rfl

/-- C1 (witness): the amended theorem applied to an empty scene store. -/
theorem C1_witness :
    get_daily_scenes [] ("20250101".toList) = []
  ∧ get_daily_recap [] ("20250101".toList) (fun _ => GenOutcome.ok "d")
      = (.error "No scenes found for the specified date", []) :=
  ⟨rfl, (C1_no_scenes_is_error_status [] ("20250101".toList)
    (fun _ => GenOutcome.ok "d") rfl).1⟩

/-- C2 (counterexample): when the OCR engine raises, `extract_text`
returns `[]` and `process_query` surfaces the envelope
`{"function": "extract_text", "result": {"status": "success", "text":
[]}}` — an error silently swallowed and returned as a success envelope,
refuting the claim. -/
theorem C2_counterexample :
    process_query {baseWorld with ocr := .engineError "Vision API unavailable"}
        (Except.ok ⟨"extract_text", [("image_url", "http://h/i.jpg")]⟩)
      = .ok "extract_text" (.textSuccess [])
  ∧ (QueryResult.textSuccess []).status = "success" :=
  ⟨rfl, rfl⟩

/-- C2 (amended): a failed download or a raised OCR engine exception in
text extraction is swallowed: `extract_text` returns the empty list and
`process_query` surfaces it in a success envelope with empty text, so
the no-false-success guarantee does not hold for this operation. -/
theorem C2_ocr_failure_is_false_success (w : World) (m : String) (img : String) :
    process_query {w with ocrDownloadOk := true, ocr := .engineError m}
        (Except.ok ⟨"extract_text", [("image_url", img)]⟩)
      = .ok "extract_text" (.textSuccess [])
  ∧ process_query {w with ocrDownloadOk := false}
        (Except.ok ⟨"extract_text", [("image_url", img)]⟩)
      = .ok "extract_text" (.textSuccess [])
  ∧ (QueryResult.textSuccess []).status = "success" := by
  refine ⟨rfl, ?_, rfl⟩
  show process_query _ _ = _
  unfold process_query dispatchCall
  cases h : ({w with ocrDownloadOk := false} : World).ocr <;>
    simp [lookupArg, extract_text, h, Except.bind]

/-- C3 (counterexample): when the underlying matcher raises a service
error, `find_face` returns `[]` and `process_query` reports
`{"status": "not_found", ...}` — the matcher failure is reported as
NotFound rather than as a Failure, refuting the claim that a service
error returns Failure and never NotFound. -/
theorem C3_counterexample :
    process_query {baseWorld with matcher := .serviceError "matcher crashed"}
        (Except.ok ⟨"recognize_face", [("image_url", "http://h/i.jpg")]⟩)
      = .ok "recognize_face" .faceNotFound
  ∧ (QueryResult.faceNotFound).status = "not_found" :=
  ⟨rfl, rfl⟩

/-- C3 (amended): a lookup that completes with zero gallery matches is
reported as status "not_found" (not an error and not a non-empty
success), but a matcher service error produces the very same
"not_found" envelope: the boundary between "found nothing" and "could
not run" is not preserved. -/
theorem C3_not_found_conflates_service_error (w : World) (img m : String)
    (frames : List (List MatchRow)) (hempty : processMatches frames = []) :
    process_query {w with faceDownloadOk := true, matcher := .results frames}
        (Except.ok ⟨"recognize_face", [("image_url", img)]⟩)
      = .ok "recognize_face" .faceNotFound
  ∧ process_query {w with faceDownloadOk := true, matcher := .serviceError m}
        (Except.ok ⟨"recognize_face", [("image_url", img)]⟩)
      = .ok "recognize_face" .faceNotFound
  ∧ (QueryResult.faceNotFound).status = "not_found" := by
  refine ⟨?_, rfl, rfl⟩
  show process_query _ _ = _
  unfold process_query dispatchCall
  simp [lookupArg, find_face, hempty, Except.bind]

/-- C3 (witness): the amended theorem applied to a matcher run returning
one frame with no rows. -/
theorem C3_witness :
    processMatches [[]] = []
  ∧ process_query {baseWorld with faceDownloadOk := true, matcher := .results [[]]}
        (Except.ok ⟨"recognize_face", [("image_url", "u")]⟩)
      = .ok "recognize_face" .faceNotFound :=
  ⟨rfl, (C3_not_found_conflates_service_error baseWorld "u" "m" [[]] rfl).1⟩

/-- C6 (code bug): every client-caused error raised inside the endpoint
body — an unsupported function name, a missing required argument, a
classifier that produces no structured call — surfaces as HTTP 500, not
4xx, because the deliberate `HTTPException(400, ...)` raised inside the
`try` block is itself caught by the blanket `except Exception` handler
and re-raised as `HTTPException(500, str(e))`. -/
theorem C6_client_errors_surface_as_500 :
    process_query baseWorld (Except.ok ⟨"made_up_function", []⟩)
      = .httpError 500 "400: Unsupported function"
  ∧ process_query baseWorld (Except.ok ⟨"recognize_face", []⟩)
      = .httpError 500 "KeyError: image_url"
  ∧ process_query baseWorld (Except.error "no function call in response")
      = .httpError 500 "no function call in response" :=
  ⟨rfl, rfl, rfl⟩

/-- C7 (confirmed): text extraction on an image with no detected text
returns the empty line list and `process_query` wraps it in a success
envelope (empty is not an error); every line ever returned is non-empty
and is its own strip (no leading or trailing whitespace); and the
returned lines are a sublist of the engine-reported full text's stripped
lines, in reading order. -/
theorem C7_extract_text_lines (ft : List Char) (rest : List (List Char)) :
    extract_text true (.annotations []) = []
  ∧ List.Sublist (extract_text true (.annotations (ft :: rest))) ((splitNl ft).map trim)
  ∧ (∀ (dl : Bool) (oc : OcrOutcome) (l : List Char),
      l ∈ extract_text dl oc → l ≠ [] ∧ trim l = l)
  ∧ (∀ (w : World) (img : String),
      process_query {w with ocrDownloadOk := true, ocr := .annotations []}
          (Except.ok ⟨"extract_text", [("image_url", img)]⟩)
        = .ok "extract_text" (.textSuccess []))
  ∧ (QueryResult.textSuccess []).status = "success" := by
  refine ⟨rfl, ?_, ?_, fun w img => rfl, rfl⟩
  · show List.Sublist (((splitNl ft).map trim).filter (fun l => l ≠ [])) _
    exact List.filter_sublist _
  · intro dl oc l hl
    cases dl with
    | false => simp [extract_text] at hl
    | true =>
      cases oc with
      | engineError m => simp [extract_text] at hl
      | annotations ts =>
        cases ts with
        | nil => simp [extract_text] at hl
        | cons ft2 rest2 =>
          have hl2 : l ∈ ((splitNl ft2).map trim).filter (fun l => l ≠ []) := hl
          rw [List.mem_filter] at hl2
          obtain ⟨hmem, hne⟩ := hl2
          obtain ⟨x, _, hx⟩ := List.mem_map.1 hmem
          refine ⟨by simpa using hne, ?_⟩
          rw [← hx]
          exact trim_trim x

/-- C7 (witness): the theorem applied to the full text
`" one line \n\n  "`, from which the single returned line is `"one line"`. -/
theorem C7_witness :
    ("one line".toList ∈ extract_text true (.annotations [" one line \n\n  ".toList]))
  ∧ ("one line".toList ≠ [] ∧ trim ("one line".toList) = "one line".toList) :=
  ⟨by decide, (C7_extract_text_lines [] []).2.2.1 true
    (.annotations [" one line \n\n  ".toList]) ("one line".toList) (by decide)⟩

/-- C9 (confirmed): the three operations are total at their public
interface; modelled failure inputs (failed download, matcher or engine
exception, download exception, non-200 response, file-write exception)
all map to the stated in-band results: the empty list for `find_face`
and `extract_text`, and an error-status dictionary for
`save_screenshot`, whose status is always "success" or "error". -/
theorem C9_failure_paths_total :
    (∀ matcher, find_face false matcher = [])
  ∧ (∀ m, find_face true (.serviceError m) = [])
  ∧ (∀ oc, extract_text false oc = [])
  ∧ (∀ m, extract_text true (.engineError m) = [])
  ∧ (∀ ts m wr, save_screenshot ts (.exn m) wr = .error m)
  ∧ (∀ ts m, save_screenshot ts (.resp 200) (some m) = .error m)
  ∧ (∀ ts code wr, code ≠ 200 →
      save_screenshot ts (.resp code) wr = .error "Failed to download image")
  ∧ (∀ ts http wr, (save_screenshot ts http wr).status = "success"
      ∨ (save_screenshot ts http wr).status = "error") := by
  refine ⟨fun matcher => rfl, fun m => rfl, fun oc => rfl, fun m => rfl,
    fun ts m wr => rfl, fun ts m => rfl, ?_, ?_⟩
  · intro ts code wr hcode
    simp [save_screenshot, hcode]
  · intro ts http wr
    cases http with
    | exn m => exact Or.inr rfl
    | resp code =>
      by_cases hc : code = 200
      · cases wr with
        | none => exact Or.inl (by simp [save_screenshot, hc, SaveResult.status])
        | some m => exact Or.inr (by simp [save_screenshot, hc, SaveResult.status])
      · exact Or.inr (by simp [save_screenshot, hc, SaveResult.status])

/-- C9 (witness): the theorem applied to a 404 download response. -/
theorem C9_witness :
    (404 ≠ 200)
  ∧ save_screenshot ("20250101_120000".toList) (.resp 404) none
      = .error "Failed to download image" :=
  ⟨by decide, C9_failure_paths_total.2.2.2.2.2.2.1 ("20250101_120000".toList) 404 none
    (by decide)⟩

/-- C10 (counterexample): for the identity `"a/b"`, which contains no
dot, a successful add stores the file at `faces/a/b.jpg`, and a
subsequent find matching that stored file reports the identity `"b"`,
not `"a/b"` — so "reported identity equals saved identity exactly when
the identity contains no dot" is false: `os.path.basename` also cuts at
the last slash. -/
theorem C10_counterexample :
    add_face true ("a/b".toList) true = some (addPath ("a/b".toList))
  ∧ reportedIdentity (addPath ("a/b".toList)) = "b".toList
  ∧ "b".toList ≠ "a/b".toList
  ∧ '.' ∉ "a/b".toList := by
  refine ⟨rfl, by decide, by decide, by decide⟩

/-- C10 (amended): a successful add stores the image at
`faces/<identity>.jpg`, a find that matches the stored file reports
`basename(path).split('.')[0]`, and the reported identity equals the
saved identity exactly when the identity contains neither a dot nor a
slash. -/
theorem C10_roundtrip_identity (identity : List Char) (d : ℚ) :
    add_face true identity true = some (addPath identity)
  ∧ find_face true (.results [[⟨addPath identity, d⟩]])
      = [⟨reportedIdentity (addPath identity), (1 - d) * 100, addPath identity⟩]
  ∧ (reportedIdentity (addPath identity) = identity
      ↔ ('.' ∉ identity ∧ '/' ∉ identity)) := by
  refine ⟨rfl, rfl, ?_⟩
  have hkey : basenameChars (addPath identity)
      = basenameAux [] (identity ++ ".jpg".toList) := by
    unfold basenameChars addPath
    rw [show facesDirC ++ '/' :: identity ++ ".jpg".toList
        = (facesDirC ++ ['/']) ++ (identity ++ ".jpg".toList) from by simp]
    rw [basenameAux_append]
    rfl
  constructor
  · intro heq
    constructor
    · intro hdot
      have hmem0 : '.' ∈ reportedIdentity (addPath identity) := by
        rw [heq]
        exact hdot
      exact dot_not_mem_takeUntilDot _ hmem0
    · intro hslash
      have hmem : '/' ∈ takeUntilDot (basenameChars (addPath identity)) := by
        show '/' ∈ reportedIdentity (addPath identity)
        rw [heq]
        exact hslash
      have hmem2 : '/' ∈ basenameChars (addPath identity) :=
        List.takeWhile_subset _ hmem
      exact slash_not_mem_basenameAux _ [] (by simp) hmem2
  · rintro ⟨hdot, hslash⟩
    have hslash2 : '/' ∉ identity ++ ".jpg".toList := by
      intro hm
      rcases List.mem_append.1 hm with hm1 | hm2
      · exact hslash hm1
      · simp at hm2
    unfold reportedIdentity
    rw [hkey, basenameAux_no_slash _ _ hslash2, List.nil_append]
    rw [show identity ++ ".jpg".toList = identity ++ '.' :: "jpg".toList from rfl]
    exact takeUntilDot_append_dot _ _ hdot

/-- C4 (confirmed): in the recap, a per-scene generation call failing
with a rate-limit signal is retried exactly once, after a 30-second
sleep, with the plain prompt stripped of the point-of-view instruction,
and on success the loop simply continues with the collected descriptions
extended; if the retry fails too, the entire recap aborts with the error
result (which carries only a message — all previously collected scene
descriptions are discarded).  The final summarizing call follows the
same retry-once policy (its combined prompt never contained the
point-of-view instruction). -/
theorem C4_rate_limit_retry (oracle : Nat → GenOutcome) (pre : List (List Char))
    (s : List Char) (post : List (List Char)) (m : String)
    (h1 : ∀ i, i < pre.length → (oracle i).isOk = true)
    (h2 : oracle pre.length = .err m true) :
    (∀ t, oracle (pre.length + 1) = .ok t →
      recapFromScenes oracle (pre ++ s :: post) =
        finishRecap oracle (pre ++ s :: post)
          (recapLoop oracle post (pre.length + 2) (okTexts oracle 0 pre ++ [t])
            (allOkEvents pre
              ++ [.callScenePov s, .sleep 30, .callScenePlain s])))
  ∧ (∀ m2 rl2, oracle (pre.length + 1) = .err m2 rl2 →
      recapFromScenes oracle (pre ++ s :: post) =
        (.error ("Failed to analyze scene after retry: " ++ m2),
          allOkEvents pre ++ [.callScenePov s, .sleep 30, .callScenePlain s]))
  ∧ (∀ k m3, oracle k = .err m3 true →
      (∀ t, oracle (k + 1) = .ok t →
        finalSummary oracle k = (Except.ok t, [.callSummary, .sleep 30, .callSummary]))
    ∧ (∀ m4 rl4, oracle (k + 1) = .err m4 rl4 →
        finalSummary oracle k =
          (Except.error ("Failed to generate summary after retry: " ++ m4),
           [.callSummary, .sleep 30, .callSummary]))) := by
  have hloop : recapLoop oracle (pre ++ s :: post) 0 [] []
      = recapLoop oracle (s :: post) pre.length (okTexts oracle 0 pre)
          (allOkEvents pre) := by
    rw [recapLoop_all_ok oracle pre (s :: post) 0 [] []
      (fun i hi => by simpa using h1 i hi)]
    rw [Nat.zero_add]
    simp only [List.nil_append]
  refine ⟨?_, ?_, ?_⟩
  · intro t ht
    have hstep : processScene oracle s pre.length
        = .cont t (pre.length + 2)
            [.callScenePov s, .sleep 30, .callScenePlain s] := by
      simp [processScene, h2, ht]
    unfold recapFromScenes
    rw [hloop, recapLoop_cons, hstep]
  · intro m2 rl2 ht
    have hstep : processScene oracle s pre.length
        = .abort ("Failed to analyze scene after retry: " ++ m2)
            [.callScenePov s, .sleep 30, .callScenePlain s] := by
      simp [processScene, h2, ht]
    unfold recapFromScenes
    rw [hloop, recapLoop_cons, hstep]
    rfl
  · intro k m3 hk
    constructor
    · intro t ht
      simp [finalSummary, hk, ht]
    · intro m4 rl4 ht
      simp [finalSummary, hk, ht]

/-- C4 (witness): one scene described successfully, then a scene whose
call and retry both fail with rate-limit errors; the recap aborts with
the retry error and the trace shows exactly one sleep-30 retry with the
plain prompt. -/
theorem C4_witness :
    ((∀ i, i < 1 → (c4Oracle i).isOk = true)
      ∧ c4Oracle 1 = .err "429 Resource has been exhausted" true
      ∧ c4Oracle 2 = .err "429 Resource has been exhausted" true)
  ∧ recapFromScenes c4Oracle
        (["scenes/scene_20250101_080000.jpg".toList]
          ++ "scenes/scene_20250101_090000.jpg".toList :: [])
      = (.error ("Failed to analyze scene after retry: "
            ++ "429 Resource has been exhausted"),
         allOkEvents ["scenes/scene_20250101_080000.jpg".toList]
           ++ [.callScenePov ("scenes/scene_20250101_090000.jpg".toList),
               .sleep 30,
               .callScenePlain ("scenes/scene_20250101_090000.jpg".toList)]) := by
  have h1 : ∀ i, i < 1 → (c4Oracle i).isOk = true := by
    intro i hi
    interval_cases i
    rfl
  exact ⟨⟨h1, rfl, rfl⟩,
    (C4_rate_limit_retry c4Oracle ["scenes/scene_20250101_080000.jpg".toList]
      ("scenes/scene_20250101_090000.jpg".toList) [] "429 Resource has been exhausted"
      h1 rfl).2.1 "429 Resource has been exhausted" true rfl⟩

/-- C5 (counterexample): an all-success recap over exactly one stored
scene sleeps 5 seconds after its last (and only) per-scene call, before
the summarizing call — refuting the claim that the inter-call delay does
not occur after the last per-scene call. -/
theorem C5_counterexample :
    delayAfterLastPerSceneCall
        ((get_daily_recap oneSceneFiles ("20250101".toList) okOracle).snd) = true
  ∧ countPerSceneCalls ((get_daily_recap oneSceneFiles ("20250101".toList) okOracle).snd)
      = 1
  ∧ ((get_daily_recap oneSceneFiles ("20250101".toList) okOracle).fst).status
      = "success" := by
  refine ⟨by decide, by decide, by decide⟩

/-- C5 (amended): with N stored scenes and every external call
succeeding, the recap issues exactly N per-scene description calls plus
exactly one final summarizing call, but the fixed 5-second delay occurs
after every successful per-scene call — including the last one, between
it and the summarizing call — not only between per-scene calls. -/
theorem C5_call_counts_and_delays (files : List (List Char)) (date : List Char)
    (oracle : Nat → GenOutcome)
    (hne : get_daily_scenes files date ≠ [])
    (hok : ∀ i, (oracle i).isOk = true) :
    get_daily_recap files date oracle
      = (.success ((oracle (get_daily_scenes files date).length).textD)
            (get_daily_scenes files date),
         allOkEvents (get_daily_scenes files date) ++ [.callSummary])
  ∧ countPerSceneCalls
        (allOkEvents (get_daily_scenes files date) ++ [.callSummary])
      = (get_daily_scenes files date).length
  ∧ countSummaryCalls
        (allOkEvents (get_daily_scenes files date) ++ [.callSummary]) = 1 := by
  have hfalse : (get_daily_scenes files date).isEmpty = false := by
    cases h : get_daily_scenes files date with
    | nil => exact absurd h hne
    | cons a r => rfl
  refine ⟨?_, ?_, ?_⟩
  · unfold get_daily_recap
    rw [hfalse]
    simp only [Bool.false_eq_true, if_false]
    exact recapFromScenes_all_ok oracle _ hne (fun i _ => hok i)
  · have hps := countPerSceneCalls_allOkEvents (get_daily_scenes files date)
    unfold countPerSceneCalls at hps ⊢
    rw [List.countP_append, hps]
    rfl
  · have hsm := countSummaryCalls_allOkEvents (get_daily_scenes files date)
    unfold countSummaryCalls at hsm ⊢
    rw [List.countP_append, hsm]
    rfl

/-- C5 (witness): the amended theorem applied to a store holding one
scene for the date, with an all-success oracle. -/
theorem C5_witness :
    (get_daily_scenes oneSceneFiles ("20250101".toList) ≠ [])
  ∧ get_daily_recap oneSceneFiles ("20250101".toList) okOracle
      = (.success ((okOracle (get_daily_scenes oneSceneFiles ("20250101".toList)).length).textD)
            (get_daily_scenes oneSceneFiles ("20250101".toList)),
         allOkEvents (get_daily_scenes oneSceneFiles ("20250101".toList))
           ++ [.callSummary]) :=
  ⟨by decide,
   (C5_call_counts_and_delays oneSceneFiles ("20250101".toList) okOracle
     (by decide) (fun i => rfl)).1⟩

/-- C8 (counterexample): with matcher frames reporting distances 1/2, 0
and 2, `find_face` returns confidences 50, 100 and -100 in that order:
the list is not ordered by descending confidence, and a confidence lies
outside [0,100] — refuting both parts of the claim (the code neither
sorts nor clamps). -/
theorem C8_counterexample :
    ¬ confidencesInRange (find_face true (.results c8Frames))
  ∧ ¬ sortedByConfidenceDesc (find_face true (.results c8Frames)) := by
  have hlist : find_face true (.results c8Frames)
      = [⟨reportedIdentity ("faces/ada.jpg".toList), (1 - 1/2) * 100,
            "faces/ada.jpg".toList⟩,
         ⟨reportedIdentity ("faces/bob.jpg".toList), (1 - 0) * 100,
            "faces/bob.jpg".toList⟩,
         ⟨reportedIdentity ("faces/cat.jpg".toList), (1 - 2) * 100,
            "faces/cat.jpg".toList⟩] := rfl
  constructor
  · intro h
    have h3 := h _ (by
      rw [hlist]
      exact List.mem_cons_of_mem _ (List.mem_cons_of_mem _ (List.mem_cons_self _ _)))
    have h4 := h3.1
    norm_num at h4
  · intro h
    rw [hlist] at h
    have h12 := (List.chain'_cons.1 h).1
    norm_num at h12

/-- C8 (amended): each returned match carries confidence
`(1 - distance) * 100`; the confidences all lie in [0,100] whenever the
matcher's reported distances lie in [0,1]; and the match list is exactly
the first row of each non-empty frame in the matcher's own frame order
(no descending sort and no clamping is applied). -/
theorem C8_confidence_range (frames : List (List MatchRow))
    (h : ∀ frame ∈ frames, ∀ row ∈ frame, 0 ≤ row.distance ∧ row.distance ≤ 1) :
    (∀ fm ∈ find_face true (.results frames),
      0 ≤ fm.confidence ∧ fm.confidence ≤ 100)
  ∧ find_face true (.results frames) = processMatches frames := by
  refine ⟨?_, rfl⟩
  intro fm hfm
  have hfm2 : fm ∈ processMatches frames := hfm
  unfold processMatches at hfm2
  rw [List.mem_filterMap] at hfm2
  obtain ⟨frame, hfr, hsome⟩ := hfm2
  cases frame with
  | nil => simp at hsome
  | cons row rest =>
    have hfm3 : (⟨reportedIdentity row.identity, (1 - row.distance) * 100,
        row.identity⟩ : FaceMatch) = fm := by
      simpa using hsome
    obtain ⟨hd0, hd1⟩ := h _ hfr row (List.mem_cons_self _ _)
    rw [← hfm3]
    constructor
    · show (0:ℚ) ≤ (1 - row.distance) * 100
      nlinarith
    · show (1 - row.distance) * 100 ≤ (100:ℚ)
      nlinarith

/-- C8 (witness): the amended theorem applied to one frame whose single
row has distance 1/2, giving confidence 50. -/
theorem C8_witness :
    (∀ frame ∈ c8WitnessFrames, ∀ row ∈ frame, 0 ≤ row.distance ∧ row.distance ≤ 1)
  ∧ (∀ fm ∈ find_face true (.results c8WitnessFrames),
      0 ≤ fm.confidence ∧ fm.confidence ≤ 100) := by
  have h : ∀ frame ∈ c8WitnessFrames, ∀ row ∈ frame,
      0 ≤ row.distance ∧ row.distance ≤ 1 := by
    intro frame hfr row hrow
    simp only [c8WitnessFrames, List.mem_singleton] at hfr
    subst hfr
    simp only [List.mem_singleton] at hrow
    subst hrow
    constructor
    · show (0:ℚ) ≤ 1/2
      norm_num
    · show (1:ℚ)/2 ≤ 1
      norm_num
  exact ⟨h, (C8_confidence_range c8WitnessFrames h).1⟩

end SmartGlasses
